import Mathlib

/-!
Shallow embedding of the `elastic` Go client's scan/scroll cursor
(`scan.go`) and multi-term-vector service (`mtermvector.go`),
with theorems checking the natural-language specification.
-/

set_option maxHeartbeats 1000000

/-- `defaultKeepAlive = "5m"` (scan.go line 19). -/
def defaultKeepAlive : String := "5m"

/-- The hit metadata of a `SearchResult`: `hits.total` and the ordered
document sequence `hits.hits` (documents abstracted to opaque strings). -/
structure Hits where
  totalHits : Int
  hits : List String
  deriving DecidableEq, Repr

/-- The decoded response consumed by the cursor: `_scroll_id` and the
optional hit metadata (`Hits == nil` in Go becomes `none`). -/
structure SearchResult where
  scrollId : String
  hits : Option Hits
  deriving DecidableEq, Repr

/-- The `ScanCursor` state (scan.go lines 209-217): the stored result page,
the context TTL, the diagnostic flags and the step counter. The `client`
pointer is the transport, passed explicitly to `Next` below. -/
structure ScanCursor where
  results : SearchResult
  keepAlive : String
  pretty : Bool
  debug : Bool
  currentPage : Nat
  deriving DecidableEq, Repr

/-- `NewScanCursor` (scan.go lines 221-229): `currentPage` starts at 0. -/
def NewScanCursor (keepAlive : String) (pretty debug : Bool)
    (searchResult : SearchResult) : ScanCursor :=
  { results := searchResult, keepAlive := keepAlive, pretty := pretty,
    debug := debug, currentPage := 0 }

/-- `ScanCursor.TotalHits` (scan.go lines 233-238). -/
def ScanCursor.TotalHits (c : ScanCursor) : Int :=
  match c.results.hits with
  | none => 0
  | some h => h.totalHits

/-- The terminal-page test of `Next` (scan.go line 259):
`c.Results.Hits == nil || len(c.Results.Hits.Hits) == 0 || c.Results.Hits.TotalHits == 0`. -/
def hitsTerminal (r : SearchResult) : Bool :=
  match r.hits with
  | none => true
  | some h => h.hits.length == 0 || h.totalHits == 0

/-- `url.Values.Set` (net/url): replace the value under a key, or add it. -/
def setParam (ps : List (String × String)) (k v : String) :
    List (String × String) :=
  if ps.any (fun p => p.1 == k) then
    ps.map (fun p => if p.1 == k then (k, v) else p)
  else
    ps ++ [(k, v)]

/-- First-match association lookup over query parameters. -/
def getParam (ps : List (String × String)) (k : String) : Option String :=
  match ps with
  | [] => none
  | p :: rest => if p.1 == k then some p.2 else getParam rest k

/-- An HTTP request issued by the cursor's continuation step:
path, query parameters and the raw string body. -/
structure ScrollRequest where
  path : String
  params : List (String × String)
  body : String
  deriving DecidableEq, Repr

/-- The continuation request built by `Next` (scan.go lines 267-289):
`POST /_search/scroll` with the `pretty` and `scroll` parameters, and
`req.SetBodyString(c.Results.ScrollId)` as body. -/
def ScanCursor.nextRequest (c : ScanCursor) : ScrollRequest :=
  let params : List (String × String) := []
  let params := if c.pretty then setParam params "pretty" "true" else params
  let params :=
    if c.keepAlive ≠ "" then setParam params "scroll" c.keepAlive
    else setParam params "scroll" defaultKeepAlive
  { path := "/_search/scroll", params := params, body := c.results.scrollId }

/-- The error side of `Next`'s `(*SearchResult, error)` return:
`EOS`, `ErrNoScrollId` (scan.go lines 24-27), or a transport-level
failure (request, HTTP or decode error, all surfaced unchanged). -/
inductive NextError where
  | eos
  | noScrollId
  | transportFailure
  deriving DecidableEq, Repr

deriving instance DecidableEq for Except

/-- Outcome of one `Next` call: its return value, the resulting cursor
state, the rest of the scripted transport, and the requests issued on
the wire (empty or a single continuation request). -/
structure NextStep where
  result : Except NextError SearchResult
  cursor : ScanCursor
  transport : List SearchResult
  requests : List ScrollRequest
  deriving DecidableEq, Repr

/-- `ScanCursor.Next` (scan.go lines 257-318) over a scripted transport:
the script lists the successful decoded responses the server returns, in
order; an exhausted script stands for a transport failure. Go's separate
request-build, HTTP and decode error paths all return the error with the
cursor unchanged and are collapsed into `transportFailure` here. -/
def ScanCursor.Next (c : ScanCursor) (t : List SearchResult) : NextStep :=
  if c.currentPage > 0 ∧ hitsTerminal c.results then
    { result := .error .eos, cursor := c, transport := t, requests := [] }
  else if c.results.scrollId = "" then
    { result := .error .noScrollId, cursor := c, transport := t, requests := [] }
  else
    let req := c.nextRequest
    match t with
    | [] =>
      { result := .error .transportFailure, cursor := c, transport := [],
        requests := [req] }
    | r :: rest =>
      { result := .ok r,
        cursor := { c with results := r, currentPage := c.currentPage + 1 },
        transport := rest, requests := [req] }

/-- Results of `n` successive `Next` calls on a cursor fed by a scripted
transport. -/
def runNexts (c : ScanCursor) (t : List SearchResult) :
    Nat → List (Except NextError SearchResult)
  | 0 => []
  | n + 1 =>
    let s := ScanCursor.Next c t
    s.result :: runNexts s.cursor s.transport n

/-- The cursor state and remaining script after `n` successive `Next`
calls. -/
def iterNext (c : ScanCursor) (t : List SearchResult) :
    Nat → ScanCursor × List SearchResult
  | 0 => (c, t)
  | n + 1 =>
    let s := ScanCursor.Next c t
    iterNext s.cursor s.transport n

/-- The `ScanService` builder state (scan.go lines 31-40). The query is
an opaque serializable object; its JSON source is irrelevant here. -/
structure ScanService where
  indices : List String
  types : List String
  keepAlive : String
  query : Option String
  size : Option Int
  pretty : Bool
  debug : Bool
  deriving DecidableEq, Repr

/-- `NewScanService` (scan.go lines 42-50): match-all query, flags off. -/
def NewScanService : ScanService :=
  { indices := [], types := [], keepAlive := "", query := some "match_all",
    size := none, pretty := false, debug := false }

/-- `ScanService.Index` (scan.go lines 52-58); the `nil`-slice
initialization before the append has no observable counterpart on lists. -/
def ScanService.Index (s : ScanService) (index : String) : ScanService :=
  { s with indices := s.indices ++ [index] }

/-- `ScanService.Indices` (scan.go lines 60-66), variadic append. -/
def ScanService.Indices (s : ScanService) (indices : List String) : ScanService :=
  { s with indices := s.indices ++ indices }

/-- `ScanService.Type` (scan.go lines 68-74). -/
def ScanService.addType (s : ScanService) (typ : String) : ScanService :=
  { s with types := s.types ++ [typ] }

/-- `ScanService.Types` (scan.go lines 76-82), variadic append. -/
def ScanService.Types (s : ScanService) (types : List String) : ScanService :=
  { s with types := s.types ++ types }

/-- The path built by `ScanService.Do` (scan.go lines 118-141).
`cleanPathString` lives outside the given sources, so the per-segment
path escaping is an explicit parameter `esc`; `strings.Join` is
`String.intercalate`. -/
def buildScanPath (esc : String → String) (indices types : List String) : String :=
  let urls := "/"
  let indexPart := indices.map esc
  let urls := if indexPart.length > 0 then urls ++ String.intercalate "," indexPart else urls
  let typesPart := types.map esc
  let urls := if typesPart.length > 0 then urls ++ "/" ++ String.intercalate "," typesPart else urls
  urls ++ "/_search"

/-- The initiation request built by `ScanService.Do` (scan.go
lines 118-175): path, query parameters, and the JSON body (only its
`query` key, present iff a query is set). -/
structure ScanRequest where
  path : String
  params : List (String × String)
  bodyQuery : Option String
  deriving DecidableEq, Repr

/-- The request-construction part of `ScanService.Do` (scan.go
lines 118-175), parametrized by the path-escape function. -/
def ScanService.doRequest (s : ScanService) (esc : String → String) : ScanRequest :=
  let params : List (String × String) := setParam [] "search_type" "scan"
  let params := if s.pretty then setParam params "pretty" "true" else params
  let params :=
    if s.keepAlive ≠ "" then setParam params "scroll" s.keepAlive
    else setParam params "scroll" defaultKeepAlive
  let params :=
    match s.size with
    | some n => if n > 0 then setParam params "size" (toString n) else params
    | none => params
  { path := buildScanPath esc s.indices s.types, params := params,
    bodyQuery := s.query }

/-- The cursor seeded by `ScanService.Do` (scan.go line 202) from the
decoded initiation response. -/
def ScanService.doCursor (s : ScanService) (searchResult : SearchResult) : ScanCursor :=
  NewScanCursor s.keepAlive s.pretty s.debug searchResult

/-- One builder call adding collection or subcollection names: the
single and variadic adders of `ScanService`. -/
inductive ScanOp where
  | index (i : String)
  | indices (l : List String)
  | typ (t : String)
  | types (l : List String)
  deriving DecidableEq, Repr

/-- Apply one builder call to the service state. -/
def applyOp (s : ScanService) : ScanOp → ScanService
  | .index i => s.Index i
  | .indices l => s.Indices l
  | .typ t => s.addType t
  | .types l => s.Types l

/-- Apply a sequence of builder calls in order. -/
def applyOps (s : ScanService) (ops : List ScanOp) : ScanService :=
  ops.foldl applyOp s

/-- The collection names one builder call contributes. -/
def opIndexNames : ScanOp → List String
  | .index i => [i]
  | .indices l => l
  | _ => []

/-- The subcollection names one builder call contributes. -/
def opTypeNames : ScanOp → List String
  | .typ t => [t]
  | .types l => l
  | _ => []

/-- A JSON value appearing in a multi-term-vector item source: Go emits
strings, raw booleans (the `offsets` pointer), string lists, string maps
and the opaque caller-supplied document. -/
inductive JVal where
  | str (s : String)
  | boolV (b : Bool)
  | strList (l : List String)
  | strMap (l : List (String × String))
  | docV (d : String)
  deriving DecidableEq, Repr

/-- `MultiTermvectorItem` (mtermvector.go lines 60-76). Pointer-typed
optional fields become `Option`; `nil` vs non-`nil` slices and maps
become `Option` lists; the document payload is opaque. -/
structure MultiTermvectorItem where
  index : String
  typ : String
  id : String
  doc : Option String
  fieldStatistics : Option Bool
  fields : Option (List String)
  perFieldAnalyzer : Option (List (String × String))
  offsets : Option Bool
  parent : String
  payloads : Option Bool
  positions : Option Bool
  preference : String
  realtime : Option Bool
  routing : String
  termStatistics : Option Bool
  deriving DecidableEq, Repr

/-- `NewMultiTermvectorItem` (mtermvector.go lines 78-80): zero values. -/
def NewMultiTermvectorItem : MultiTermvectorItem :=
  { index := "", typ := "", id := "", doc := none, fieldStatistics := none,
    fields := none, perFieldAnalyzer := none, offsets := none, parent := "",
    payloads := none, positions := none, preference := "", realtime := none,
    routing := "", termStatistics := none }

/-- `fmt.Sprintf("%v", b)` on a Go bool. -/
def sprintfBool (b : Bool) : String := if b then "true" else "false"

/-- One conditional `source[k] = v` assignment guarded by a test
(the `if s.field != "" { ... }` lines of `Source`). -/
def entryIf (c : Prop) [Decidable c] (k : String) (v : JVal) :
    List (String × JVal) :=
  if c then [(k, v)] else []

/-- One `source[k] = f(x)` assignment guarded by a non-`nil` pointer or
slice (the `if s.field != nil { ... }` lines of `Source`). -/
def entryOpt {α : Type} (o : Option α) (k : String) (f : α → JVal) :
    List (String × JVal) :=
  match o with
  | some a => [(k, f a)]
  | none => []

/-- A guarded assignment with an extra test on the present value
(the `if s.perFieldAnalyzer != nil && len(...) > 0` line of `Source`). -/
def entryOptIf {α : Type} (o : Option α) (c : α → Prop) [DecidablePred c]
    (k : String) (f : α → JVal) : List (String × JVal) :=
  match o with
  | some a => if c a then [(k, f a)] else []
  | none => []

/-- `MultiTermvectorItem.Source` (mtermvector.go lines 179-228), the
serialized item body, as the list of key-value pairs inserted into the
`source` map in program order (Go map key order is irrelevant: only the
key-value set is observable after JSON marshalling). -/
def MultiTermvectorItem.Source (s : MultiTermvectorItem) : List (String × JVal) :=
  [("_id", .str s.id)]
  ++ entryIf (s.index ≠ "") "_index" (.str s.index)
  ++ entryIf (s.typ ≠ "") "_type" (.str s.typ)
  ++ entryOpt s.fields "fields" (fun l => .strList l)
  ++ entryOpt s.fieldStatistics "field_statistics" (fun b => .str (sprintfBool b))
  ++ entryOpt s.offsets "offsets" (fun b => .boolV b)
  ++ entryIf (s.parent ≠ "") "parant" (.str s.parent)
  ++ entryOpt s.payloads "payloads" (fun b => .str (sprintfBool b))
  ++ entryOpt s.positions "positions" (fun b => .str (sprintfBool b))
  ++ entryIf (s.preference ≠ "") "preference" (.str s.preference)
  ++ entryOpt s.realtime "realtime" (fun b => .str (sprintfBool b))
  ++ entryIf (s.routing ≠ "") "routing" (.str s.routing)
  ++ entryOpt s.termStatistics "term_statistics" (fun b => .str (sprintfBool b))
  ++ entryOpt s.doc "doc" (fun d => .docV d)
  ++ entryOptIf s.perFieldAnalyzer (fun l => l.length > 0) "per_field_analyzer"
      (fun l => .strMap l)

/-- `MultiTermvectorService` (mtermvector.go lines 17-26). -/
structure MultiTermvectorService where
  pretty : Bool
  index : String
  typ : String
  preference : String
  realtime : Option Bool
  refresh : Option Bool
  docs : List MultiTermvectorItem
  deriving DecidableEq, Repr

/-- `NewMultiTermvectorService` (mtermvector.go lines 29-33). -/
def NewMultiTermvectorService : MultiTermvectorService :=
  { pretty := false, index := "", typ := "", preference := "",
    realtime := none, refresh := none, docs := [] }

/-- `MultiTermvectorService.Validate` (mtermvector.go lines 276-288):
the list of missing required field names, or `none` when valid. The Go
version wraps the non-empty list in `fmt.Errorf("missing required fields: %v", invalid)`. -/
def MultiTermvectorService.Validate (s : MultiTermvectorService) :
    Option (List String) :=
  let invalid : List String :=
    (if s.index = "" then ["Index"] else []) ++ (if s.typ = "" then ["Type"] else [])
  if invalid.length > 0 then some invalid else none

/-- `MultiTermvectorService.buildURL` (mtermvector.go lines 241-273):
the request path (URI-template expansion's escaping is not in the given
sources and is applied verbatim here) and the query parameters. -/
def MultiTermvectorService.buildURL (s : MultiTermvectorService) :
    String × List (String × String) :=
  let path :=
    if s.index ≠ "" ∧ s.typ ≠ "" then "/" ++ s.index ++ "/" ++ s.typ ++ "/_mtermvectors"
    else if s.index ≠ "" then "/" ++ s.index ++ "/_mtermvectors"
    else "/_mtermvectors"
  let params : List (String × String) := []
  let params := if s.pretty then setParam params "pretty" "1" else params
  let params := if s.preference ≠ "" then setParam params "preference" s.preference else params
  let params :=
    match s.realtime with
    | some b => setParam params "realtime" (sprintfBool b)
    | none => params
  (path, params)

/-- Outcome of `MultiTermvectorService.Do`: either the validation error
(with the missing field names) before any request, or the one request
performed against the server. -/
inductive MtvOutcome where
  | validationError (missing : List String)
  | performed (path : String) (params : List (String × String))
  deriving DecidableEq, Repr

/-- `MultiTermvectorService.Do` (mtermvector.go lines 291-316) up to the
network boundary: its outcome and the number of network calls made. -/
def MultiTermvectorService.Do (s : MultiTermvectorService) : MtvOutcome × Nat :=
  match s.Validate with
  | some missing => (.validationError missing, 0)
  | none =>
    let u := s.buildURL
    (.performed u.1 u.2, 1)

/-! ## Helper lemmas -/

/-- An exhausted cursor answers every further call with `EOS`, touching
neither its state nor the wire. -/
theorem eos_forever (c : ScanCursor) (t : List SearchResult) (n : Nat)
    (h1 : c.currentPage > 0) (h2 : hitsTerminal c.results = true) :
    runNexts c t n = List.replicate n (.error .eos) := by
  induction n with
  | zero => rfl
  | succ m ih =>
    simp only [runNexts]
    rw [show ScanCursor.Next c t =
        { result := .error .eos, cursor := c, transport := t, requests := [] } by
      simp [ScanCursor.Next, h1, h2]]
    simp [List.replicate, ih]

/-- A `Next` call never changes the stored context TTL. -/
theorem next_keepAlive (c : ScanCursor) (t : List SearchResult) :
    (ScanCursor.Next c t).cursor.keepAlive = c.keepAlive := by
  unfold ScanCursor.Next
  split
  · rfl
  · split
    · rfl
    · cases t <;> rfl

/-- Stepping any number of times never changes the stored context TTL. -/
theorem iterNext_keepAlive (c : ScanCursor) (t : List SearchResult) (n : Nat) :
    (iterNext c t n).1.keepAlive = c.keepAlive := by
  induction n generalizing c t with
  | zero => rfl
  | succ m ih =>
    simp only [iterNext]
    rw [ih, next_keepAlive]

/-- `url.Values.Set` followed by a lookup of the same key yields the set
value. -/
theorem getParam_setParam_self (ps : List (String × String)) (k v : String) :
    getParam (setParam ps k v) k = some v := by
  induction ps with
  | nil => simp [setParam, getParam]
  | cons p rest ih =>
    by_cases hp : p.1 = k
    · simp [setParam, getParam, hp]
    · by_cases hany : rest.any (fun q => q.1 == k)
      · simp [setParam, getParam, hp, hany] at ih ⊢
        exact ih
      · simp [setParam, getParam, hp, hany] at ih ⊢
        exact ih

/-- Rewriting the value stored under key `k` does not affect lookups of
a different key. -/
theorem getParam_map (ps : List (String × String)) (k v k' : String)
    (h : k' ≠ k) :
    getParam (ps.map (fun p => if p.1 == k then (k, v) else p)) k' =
      getParam ps k' := by
  induction ps with
  | nil => rfl
  | cons p rest ih =>
    simp only [beq_iff_eq] at ih ⊢
    by_cases hp : p.1 = k
    · simp only [List.map_cons, if_pos hp, getParam, beq_iff_eq]
      simp [hp, Ne.symm h]
      simpa using ih
    · by_cases hp' : p.1 = k'
      · simp only [List.map_cons, if_neg hp, getParam, beq_iff_eq]
        simp [hp']
      · simp only [List.map_cons, if_neg hp, getParam, beq_iff_eq]
        simp [hp']
        simpa using ih

/-- Appending a binding for key `k` does not affect lookups of a
different key. -/
theorem getParam_append_single (ps : List (String × String)) (k v k' : String)
    (h : k' ≠ k) :
    getParam (ps ++ [(k, v)]) k' = getParam ps k' := by
  induction ps with
  | nil => simp [getParam, Ne.symm h]
  | cons p rest ih =>
    by_cases hp : p.1 = k' <;> simp [getParam, hp, ih]

/-- `url.Values.Set` leaves lookups of other keys unchanged. -/
theorem getParam_setParam_other (ps : List (String × String)) (k v k' : String)
    (h : k' ≠ k) : getParam (setParam ps k v) k' = getParam ps k' := by
  unfold setParam
  split
  · exact getParam_map ps k v k' h
  · exact getParam_append_single ps k v k' h

/-- The scroll parameter a continuation request carries: the stored TTL
or the default. -/
theorem nextRequest_scroll (c : ScanCursor) :
    getParam c.nextRequest.params "scroll" =
      some (if c.keepAlive = "" then defaultKeepAlive else c.keepAlive) := by
  unfold ScanCursor.nextRequest
  by_cases hk : c.keepAlive = "" <;> simp [hk, getParam_setParam_self]

/-- Builder calls accumulate collection and subcollection names in call
order, regardless of single/variadic grouping. -/
theorem applyOps_fields (s : ScanService) (ops : List ScanOp) :
    (applyOps s ops).indices = s.indices ++ ops.flatMap opIndexNames ∧
    (applyOps s ops).types = s.types ++ ops.flatMap opTypeNames := by
  induction ops generalizing s with
  | nil => simp [applyOps]
  | cons op rest ih =>
    have hstep : applyOps s (op :: rest) = applyOps (applyOp s op) rest := rfl
    have h := ih (applyOp s op)
    rw [hstep]
    refine ⟨?_, ?_⟩
    · rw [h.1]
      cases op <;>
        simp [applyOp, ScanService.Index, ScanService.Indices,
          ScanService.addType, ScanService.Types, opIndexNames]
    · rw [h.2]
      cases op <;>
        simp [applyOp, ScanService.Index, ScanService.Indices,
          ScanService.addType, ScanService.Types, opTypeNames]

/-- Membership in a string-guarded source entry. -/
theorem mem_entryIf {c : Prop} [Decidable c] {k k' : String} {v v' : JVal} :
    (k', v') ∈ entryIf c k v ↔ c ∧ k' = k ∧ v' = v := by
  unfold entryIf
  split <;> simp_all

/-- Membership in a pointer-guarded source entry. -/
theorem mem_entryOpt {α : Type} {o : Option α} {k k' : String} {f : α → JVal}
    {v' : JVal} :
    (k', v') ∈ entryOpt o k f ↔ ∃ a, o = some a ∧ k' = k ∧ v' = f a := by
  cases o <;> simp [entryOpt]

/-- Membership in a pointer-and-test-guarded source entry. -/
theorem mem_entryOptIf {α : Type} {o : Option α} {c : α → Prop}
    [DecidablePred c] {k k' : String} {f : α → JVal} {v' : JVal} :
    (k', v') ∈ entryOptIf o c k f ↔
      ∃ a, o = some a ∧ c a ∧ k' = k ∧ v' = f a := by
  cases o with
  | none => simp [entryOptIf]
  | some a =>
    unfold entryOptIf
    split <;> simp_all

/-! ## Claim theorems -/

/-- C3: for every cursor with step count greater than 0 whose stored
page is terminal (nil hit metadata, or empty document sequence, or zero
total-hit count), every subsequent `Next` call returns end-of-stream,
issues zero network requests, and leaves the cursor state completely
unchanged, so repeated calls keep returning end-of-stream. -/
theorem terminal_idempotent (c : ScanCursor) (t : List SearchResult) (n : Nat)
    (h1 : c.currentPage > 0) (h2 : hitsTerminal c.results = true) :
    ScanCursor.Next c t =
      { result := .error .eos, cursor := c, transport := t, requests := [] } ∧
    runNexts c t n = List.replicate n (.error .eos) := by
  refine ⟨?_, eos_forever c t n h1 h2⟩
  simp [ScanCursor.Next, h1, h2]

/-- C3 witness: a concrete exhausted cursor keeps answering `EOS`. -/
theorem terminal_idempotent_witness :
    ScanCursor.Next ⟨⟨"tok", some ⟨7, []⟩⟩, "2m", true, false, 2⟩ [⟨"x", none⟩] =
      { result := .error .eos, cursor := ⟨⟨"tok", some ⟨7, []⟩⟩, "2m", true, false, 2⟩,
        transport := [⟨"x", none⟩], requests := [] } ∧
    runNexts ⟨⟨"tok", some ⟨7, []⟩⟩, "2m", true, false, 2⟩ [⟨"x", none⟩] 3 =
      List.replicate 3 (.error .eos) :=
  terminal_idempotent ⟨⟨"tok", some ⟨7, []⟩⟩, "2m", true, false, 2⟩ [⟨"x", none⟩] 3
    (by decide) (by decide)

/-- C2 counterexample: a cursor whose scroll token is empty but whose
step count is positive and whose stored page is terminal answers
end-of-stream, not the missing-token failure, refuting "regardless of
the current step count and regardless of the stored page's contents". -/
theorem missing_token_cex :
    (⟨⟨"", none⟩, "", false, false, 1⟩ : ScanCursor).results.scrollId = "" ∧
    (ScanCursor.Next ⟨⟨"", none⟩, "", false, false, 1⟩ []).result = .error .eos ∧
    (ScanCursor.Next ⟨⟨"", none⟩, "", false, false, 1⟩ []).result ≠
      .error .noScrollId := by
  decide

/-- C2 amended: for every cursor whose stored scroll token is empty and
on which the terminal-page short-circuit does not fire (step count 0, or
non-terminal stored page), `Next` returns the distinct missing-token
failure, performs zero network calls and leaves all state unchanged. -/
theorem missing_token_amended (c : ScanCursor) (t : List SearchResult)
    (hs : c.results.scrollId = "")
    (hng : ¬(c.currentPage > 0 ∧ hitsTerminal c.results = true)) :
    ScanCursor.Next c t =
      { result := .error .noScrollId, cursor := c, transport := t,
        requests := [] } := by
  simp [ScanCursor.Next, hs, hng]

/-- C2 witness: a fresh cursor with an empty token fails with the
missing-token condition without touching the wire. -/
theorem missing_token_amended_witness :
    ScanCursor.Next ⟨⟨"", some ⟨5, ["d"]⟩⟩, "", false, false, 0⟩ [⟨"x", none⟩] =
      { result := .error .noScrollId,
        cursor := ⟨⟨"", some ⟨5, ["d"]⟩⟩, "", false, false, 0⟩,
        transport := [⟨"x", none⟩], requests := [] } :=
  missing_token_amended ⟨⟨"", some ⟨5, ["d"]⟩⟩, "", false, false, 0⟩ [⟨"x", none⟩]
    (by decide) (by decide)

/-- C7: the total-hit accessor returns 0 whenever no hit metadata is
present in the stored result, and otherwise the total-hit count of the
most recently stored page. -/
theorem total_hits_accessor (c : ScanCursor) :
    (c.results.hits = none → ScanCursor.TotalHits c = 0) ∧
    (∀ h : Hits, c.results.hits = some h →
      ScanCursor.TotalHits c = h.totalHits) := by
  constructor
  · intro h
    simp [ScanCursor.TotalHits, h]
  · intro hh h
    simp [ScanCursor.TotalHits, h]

/-- C7 witness: the accessor evaluated on a cursor without and with hit
metadata. -/
theorem total_hits_accessor_witness :
    ScanCursor.TotalHits ⟨⟨"s", none⟩, "", false, false, 0⟩ = 0 ∧
    ScanCursor.TotalHits ⟨⟨"s", some ⟨42, ["d"]⟩⟩, "", false, false, 1⟩ = 42 :=
  ⟨(total_hits_accessor ⟨⟨"s", none⟩, "", false, false, 0⟩).1 rfl,
   (total_hits_accessor ⟨⟨"s", some ⟨42, ["d"]⟩⟩, "", false, false, 1⟩).2
     ⟨42, ["d"]⟩ rfl⟩

/-- C5: every continuation request issued by a `Next` call carries, as
its body, exactly the stored scroll-token string, with no wrapping. -/
theorem scroll_body_raw_token (c : ScanCursor) (t : List SearchResult)
    (req : ScrollRequest) (h : req ∈ (ScanCursor.Next c t).requests) :
    req.body = c.results.scrollId := by
  by_cases h1 : c.currentPage > 0 ∧ hitsTerminal c.results = true
  · simp [ScanCursor.Next, h1] at h
  · by_cases h2 : c.results.scrollId = ""
    · simp [ScanCursor.Next, h1, h2] at h
    · have hreq : req = c.nextRequest := by
        cases t with
        | nil => simpa [ScanCursor.Next, h1, h2] using h
        | cons r rest => simpa [ScanCursor.Next, h1, h2] using h
      rw [hreq]
      rfl

/-- C5 witness: the one request of a concrete first step carries the
seed token verbatim. -/
theorem scroll_body_raw_token_witness :
    (⟨"/_search/scroll", [("scroll", "5m")], "tok0"⟩ : ScrollRequest).body =
      (⟨⟨"tok0", some ⟨3, []⟩⟩, "", false, false, 0⟩ : ScanCursor).results.scrollId :=
  scroll_body_raw_token ⟨⟨"tok0", some ⟨3, []⟩⟩, "", false, false, 0⟩
    [⟨"t1", some ⟨3, ["a"]⟩⟩] ⟨"/_search/scroll", [("scroll", "5m")], "tok0"⟩
    (by decide)

/-- C1 counterexample: with scripted continuation responses A, B
(non-empty) and C (empty), the third `Next` call returns the empty page
C itself — only the fourth call returns end-of-stream — so the claimed
sequence A, B, end-of-stream, end-of-stream is refuted at this input. -/
theorem scan_sequence_cex :
    runNexts (NewScanCursor "" false false ⟨"s0", some ⟨3, []⟩⟩)
        [⟨"sA", some ⟨3, ["a1", "a2"]⟩⟩, ⟨"sB", some ⟨3, ["b1"]⟩⟩,
         ⟨"sC", some ⟨3, []⟩⟩] 4 =
      [.ok ⟨"sA", some ⟨3, ["a1", "a2"]⟩⟩, .ok ⟨"sB", some ⟨3, ["b1"]⟩⟩,
       .ok ⟨"sC", some ⟨3, []⟩⟩, .error .eos] ∧
    runNexts (NewScanCursor "" false false ⟨"s0", some ⟨3, []⟩⟩)
        [⟨"sA", some ⟨3, ["a1", "a2"]⟩⟩, ⟨"sB", some ⟨3, ["b1"]⟩⟩,
         ⟨"sC", some ⟨3, []⟩⟩] 4 ≠
      [.ok ⟨"sA", some ⟨3, ["a1", "a2"]⟩⟩, .ok ⟨"sB", some ⟨3, ["b1"]⟩⟩,
       .error .eos, .error .eos] := by
  decide

/-- C1 amended: for a cursor seeded by initiation (step count 0,
non-empty token) and a scripted transport whose continuation responses
are non-empty pages A and B (each with a token) and an empty page C, the
results of successive `Next` calls are A, B, C, and then end-of-stream
on every further call. -/
theorem scan_sequence_amended (c : ScanCursor) (A B C : SearchResult) (n : Nat)
    (hc : c.currentPage = 0) (hs : c.results.scrollId ≠ "")
    (hA : hitsTerminal A = false) (hAs : A.scrollId ≠ "")
    (hB : hitsTerminal B = false) (hBs : B.scrollId ≠ "")
    (hC : hitsTerminal C = true) :
    runNexts c [A, B, C] (n + 3) =
      [.ok A, .ok B, .ok C] ++ List.replicate n (.error .eos) := by
  have e1 : ScanCursor.Next c [A, B, C] =
      { result := .ok A,
        cursor := { c with results := A, currentPage := c.currentPage + 1 },
        transport := [B, C], requests := [c.nextRequest] } := by
    simp [ScanCursor.Next, hc, hs]
  have e2 : ScanCursor.Next
      { c with results := A, currentPage := c.currentPage + 1 } [B, C] =
      { result := .ok B,
        cursor := { c with results := B, currentPage := c.currentPage + 1 + 1 },
        transport := [C],
        requests := [ScanCursor.nextRequest
          { c with results := A, currentPage := c.currentPage + 1 }] } := by
    simp [ScanCursor.Next, hA, hAs]
  have e3 : ScanCursor.Next
      { c with results := B, currentPage := c.currentPage + 1 + 1 } [C] =
      { result := .ok C,
        cursor :=
          { c with results := C, currentPage := c.currentPage + 1 + 1 + 1 },
        transport := [],
        requests := [ScanCursor.nextRequest
          { c with results := B, currentPage := c.currentPage + 1 + 1 }] } := by
    simp [ScanCursor.Next, hB, hBs]
  have efin := eos_forever
    { c with results := C, currentPage := c.currentPage + 1 + 1 + 1 } [] n
    (by simp) (by simpa using hC)
  simp only [runNexts, e1, e2, e3]
  simpa using efin

/-- C1 amended witness: the amended sequence evaluated on a concrete
script with two trailing end-of-stream calls. -/
theorem scan_sequence_amended_witness :
    runNexts (NewScanCursor "" false false ⟨"s0", some ⟨3, []⟩⟩)
        [⟨"sA", some ⟨3, ["a1"]⟩⟩, ⟨"sB", some ⟨3, ["b1"]⟩⟩,
         ⟨"sC", some ⟨3, []⟩⟩] (2 + 3) =
      [.ok ⟨"sA", some ⟨3, ["a1"]⟩⟩, .ok ⟨"sB", some ⟨3, ["b1"]⟩⟩,
       .ok ⟨"sC", some ⟨3, []⟩⟩] ++ List.replicate 2 (.error .eos) :=
  scan_sequence_amended (NewScanCursor "" false false ⟨"s0", some ⟨3, []⟩⟩)
    ⟨"sA", some ⟨3, ["a1"]⟩⟩ ⟨"sB", some ⟨3, ["b1"]⟩⟩ ⟨"sC", some ⟨3, []⟩⟩ 2
    (by decide) (by decide) (by decide) (by decide) (by decide) (by decide)
    (by decide)

/-- C4 counterexample: with both name lists empty the initiation path is
`"//_search"` — the always-present root slash followed by the search
suffix — not the fixed search suffix `"/_search"` alone. -/
theorem path_empty_cex :
    buildScanPath (fun x => x) [] [] = "//_search" ∧
    buildScanPath (fun x => x) [] [] ≠ "/_search" := by
  decide

/-- C4 amended: a path segment is omitted entirely when its backing list
is empty; with both lists empty the path is the root slash followed by
the fixed search suffix (`"//_search"`), and with exactly one list empty
only the non-empty list contributes a comma-joined, escaped segment
before the suffix. -/
theorem path_segments_amended (esc : String → String) (il tl : List String) :
    buildScanPath esc [] [] = "//_search" ∧
    (il ≠ [] → buildScanPath esc il [] =
      "/" ++ String.intercalate "," (il.map esc) ++ "/_search") ∧
    (tl ≠ [] → buildScanPath esc [] tl =
      "/" ++ "/" ++ String.intercalate "," (tl.map esc) ++ "/_search") := by
  refine ⟨rfl, ?_, ?_⟩
  · intro h
    cases il with
    | nil => exact absurd rfl h
    | cons i rest => simp [buildScanPath]
  · intro h
    cases tl with
    | nil => exact absurd rfl h
    | cons t rest => simp [buildScanPath]

/-- C4 amended witness: the three shapes evaluated on concrete lists. -/
theorem path_segments_amended_witness :
    buildScanPath (fun x => x) [] [] = "//_search" ∧
    buildScanPath (fun x => x) ["i1", "i2"] [] =
      "/" ++ String.intercalate "," ["i1", "i2"] ++ "/_search" ∧
    buildScanPath (fun x => x) [] ["t1"] =
      "/" ++ "/" ++ String.intercalate "," ["t1"] ++ "/_search" := by
  have h := path_segments_amended (fun x => x) ["i1", "i2"] ["t1"]
  exact ⟨h.1, by simpa using h.2.1 (by decide), by simpa using h.2.2 (by decide)⟩

/-- C6: the initiation request and every continuation request issued by
the resulting cursor carry the same TTL in their `scroll` query
parameter: the default `"5m"` when no explicit TTL was configured, the
explicit value otherwise. -/
theorem ttl_consistent (s : ScanService) (esc : String → String)
    (r : SearchResult) (t : List SearchResult) (n : Nat) :
    getParam (s.doRequest esc).params "scroll" =
      some (if s.keepAlive = "" then defaultKeepAlive else s.keepAlive) ∧
    getParam ((iterNext (s.doCursor r) t n).1.nextRequest).params "scroll" =
      some (if s.keepAlive = "" then defaultKeepAlive else s.keepAlive) := by
  constructor
  · unfold ScanService.doRequest
    have hscroll : ∀ ps : List (String × String),
        getParam (if s.keepAlive ≠ "" then setParam ps "scroll" s.keepAlive
          else setParam ps "scroll" defaultKeepAlive) "scroll" =
        some (if s.keepAlive = "" then defaultKeepAlive else s.keepAlive) := by
      intro ps
      by_cases hk : s.keepAlive = "" <;> simp [hk, getParam_setParam_self]
    cases hsz : s.size with
    | none => simpa [hsz] using hscroll _
    | some m =>
      by_cases hm : m > 0
      · simpa [hsz, hm, getParam_setParam_other _ "size" _ "scroll" (by decide)]
          using hscroll _
      · simpa [hsz, hm] using hscroll _
  · have hk : (iterNext (s.doCursor r) t n).1.keepAlive = s.keepAlive :=
      iterNext_keepAlive (s.doCursor r) t n
    rw [nextRequest_scroll, hk]

/-- C8: collection and subcollection names added across any interleaving
of single and variadic builder calls accumulate in call order, and two
call sequences adding the same names — one at a time or in batches —
produce identical comma-joined, escaped path segments at initiation. -/
theorem accumulation_order_independent (s : ScanService)
    (esc : String → String) (ops1 ops2 : List ScanOp)
    (hI : ops1.flatMap opIndexNames = ops2.flatMap opIndexNames)
    (hT : ops1.flatMap opTypeNames = ops2.flatMap opTypeNames) :
    (applyOps s ops1).indices = s.indices ++ ops1.flatMap opIndexNames ∧
    (applyOps s ops1).types = s.types ++ ops1.flatMap opTypeNames ∧
    buildScanPath esc (applyOps s ops1).indices (applyOps s ops1).types =
      buildScanPath esc (applyOps s ops2).indices (applyOps s ops2).types := by
  have h1 := applyOps_fields s ops1
  have h2 := applyOps_fields s ops2
  refine ⟨h1.1, h1.2, ?_⟩
  rw [h1.1, h1.2, h2.1, h2.2, hI, hT]

/-- C8 witness: adding `a`, `b`, `t` one at a time versus in batches
yields the same accumulated lists and the same initiation path. -/
theorem accumulation_order_independent_witness :
    (applyOps NewScanService
        [.index "a", .typ "t", .index "b"]).indices = ["a", "b"] ∧
    (applyOps NewScanService
        [.index "a", .typ "t", .index "b"]).types = ["t"] ∧
    buildScanPath (fun x => x)
        (applyOps NewScanService [.index "a", .typ "t", .index "b"]).indices
        (applyOps NewScanService [.index "a", .typ "t", .index "b"]).types =
      buildScanPath (fun x => x)
        (applyOps NewScanService [.indices ["a", "b"], .types ["t"]]).indices
        (applyOps NewScanService [.indices ["a", "b"], .types ["t"]]).types := by
  have h := accumulation_order_independent NewScanService (fun x => x)
    [.index "a", .typ "t", .index "b"] [.indices ["a", "b"], .types ["t"]]
    (by decide) (by decide)
  exact ⟨by simpa using h.1, by simpa using h.2.1, h.2.2⟩

/-- C9: a multi-term-vector execution with the index or the document
type unset fails validation — the error names exactly the missing
fields — and performs zero network calls; with both set, validation
passes. -/
theorem mtv_validate_do (s : MultiTermvectorService) :
    ((s.index = "" ∨ s.typ = "") →
      ∃ m, s.Validate = some m ∧
        ("Index" ∈ m ↔ s.index = "") ∧ ("Type" ∈ m ↔ s.typ = "") ∧
        s.Do = (.validationError m, 0)) ∧
    (s.index ≠ "" → s.typ ≠ "" → s.Validate = none) := by
  by_cases hi : s.index = "" <;> by_cases ht : s.typ = ""
  · exact ⟨fun _ => ⟨["Index", "Type"],
      by simp [MultiTermvectorService.Validate, hi, ht],
      by simp [hi], by simp [ht],
      by simp [MultiTermvectorService.Do, MultiTermvectorService.Validate, hi, ht]⟩,
      fun h => absurd hi h⟩
  · exact ⟨fun _ => ⟨["Index"],
      by simp [MultiTermvectorService.Validate, hi, ht],
      by simp [hi], by simp [ht],
      by simp [MultiTermvectorService.Do, MultiTermvectorService.Validate, hi, ht]⟩,
      fun h => absurd hi h⟩
  · exact ⟨fun _ => ⟨["Type"],
      by simp [MultiTermvectorService.Validate, hi, ht],
      by simp [hi], by simp [ht],
      by simp [MultiTermvectorService.Do, MultiTermvectorService.Validate, hi, ht]⟩,
      fun _ h2 => absurd ht h2⟩
  · refine ⟨fun h => ?_, fun _ _ => by
      simp [MultiTermvectorService.Validate, hi, ht]⟩
    rcases h with h | h
    · exact absurd h hi
    · exact absurd h ht

/-- C9 witness: a service missing its index fails validation with zero
network calls; a fully specified one validates. -/
theorem mtv_validate_do_witness :
    (∃ m, ({ NewMultiTermvectorService with typ := "doc" } :
        MultiTermvectorService).Validate = some m ∧
      ("Index" ∈ m ↔ ({ NewMultiTermvectorService with typ := "doc" } :
        MultiTermvectorService).index = "") ∧
      ("Type" ∈ m ↔ ({ NewMultiTermvectorService with typ := "doc" } :
        MultiTermvectorService).typ = "") ∧
      ({ NewMultiTermvectorService with typ := "doc" } :
        MultiTermvectorService).Do = (.validationError m, 0)) ∧
    ({ NewMultiTermvectorService with index := "idx", typ := "doc" } :
      MultiTermvectorService).Validate = none :=
  ⟨(mtv_validate_do { NewMultiTermvectorService with typ := "doc" }).1
      (Or.inl rfl),
   (mtv_validate_do
      { NewMultiTermvectorService with index := "idx", typ := "doc" }).2
      (by decide) (by decide)⟩

/-- C10: an item with a non-empty parent id serializes the parent value
under the key `"parant"`, and no `"parent"` key is ever emitted by any
item. -/
theorem parant_key (s : MultiTermvectorItem) :
    (s.parent ≠ "" → ("parant", JVal.str s.parent) ∈ s.Source) ∧
    (∀ v : JVal, ("parent", v) ∉ s.Source) := by
  constructor
  · intro hp
    simp [MultiTermvectorItem.Source, mem_entryIf, mem_entryOpt,
      mem_entryOptIf, hp]
  · intro v h
    simp [MultiTermvectorItem.Source, mem_entryIf, mem_entryOpt,
      mem_entryOptIf] at h

/-- C10 witness: a concrete item with parent `"p"` emits `("parant", "p")`
and no `"parent"` key. -/
theorem parant_key_witness :
    ("parant", JVal.str "p") ∈
      ({ NewMultiTermvectorItem with id := "1", parent := "p" } :
        MultiTermvectorItem).Source ∧
    ("parent", JVal.str "p") ∉
      ({ NewMultiTermvectorItem with id := "1", parent := "p" } :
        MultiTermvectorItem).Source :=
  ⟨(parant_key { NewMultiTermvectorItem with id := "1", parent := "p" }).1
      (by decide),
   (parant_key { NewMultiTermvectorItem with id := "1", parent := "p" }).2
      (JVal.str "p")⟩
